import Mathlib

/-!
Verification development for the PRISM structure-generator script
(`structure_generator_script(4).py`).

The script is a one-shot scaffolding tool: `StructureGenerator.run` creates a
fixed directory tree under `Path(project_name)` and writes template files into
it.  We embed the engine shallowly:

* the filesystem is a pair of maps (`FS`): which paths exist as directories and
  which paths hold which file content; paths are lists of components, mirroring
  `pathlib.Path` with empty segments dropped;
* `mkdir(parents=True, exist_ok=True)` marks every non-empty prefix of the
  target path as a directory and never fails;
* `open(path, 'w').write(content)` may fail (permission error, disk full, ...);
  the environment is modelled by an oracle `ok : List String → Bool` saying
  which open-for-write calls succeed.  A failed write raises an exception;
  the source has no per-file handler, so the exception aborts the remaining
  work and is only caught in `run`, which exits with status 1;
* the bodies of the zero-argument static template methods (`_get_main_readme`,
  `_get_gitignore`, ...) are opaque payload strings; the spec treats them as
  out-of-scope data, so they are supplied by a parameter
  `tpl : String → String` keyed by method name.  The three parameterized
  per-service producers (`_get_service_main`, `_get_service_dockerfile`,
  `_get_service_requirements`) are embedded concretely, since claims are about
  their output.  51 of the 91 template methods the script calls are not
  defined anywhere in the file; calling one raises `AttributeError`, which we
  model by `evalContent` returning `none` for a method name that is not in
  `definedTemplates` (the 40 methods actually defined in the source).
-/

namespace StructureGen

/-- Filesystem state: which paths (component lists, rooted at the current
working directory) are directories, and what content each file path holds. -/
structure FS where
  isDir : List String → Bool
  file : List String → Option String

/-- An empty working directory. -/
def emptyFS : FS := ⟨fun _ => false, fun _ => none⟩

/-- All non-empty prefixes of a path: the ancestor chain that
`mkdir(parents=True)` creates, the path itself included. -/
def prefixesOf : List String → List (List String)
  | [] => []
  | a :: rest => [a] :: (prefixesOf rest).map (fun p => a :: p)

/-- `path.mkdir(parents=True, exist_ok=True)`: every ancestor is created, and
an already existing directory is not an error. -/
def mkdirParents (fs : FS) (p : List String) : FS :=
  { fs with isDir := fun q => decide (q ∈ prefixesOf p) || fs.isDir q }

/-- Helper for `splitSlash`, working on the character list. -/
def splitSlashGo : List Char → List (List Char)
  | [] => [[]]
  | c :: rest =>
    let r := splitSlashGo rest
    if c = '/' then [] :: r
    else (c :: r.headD []) :: r.tail

/-- Python `s.split("/")`: split at every slash, keeping empty segments
(`"".split("/") == [""]`).  This is also how `pathlib` decomposes the relative
path strings the script passes it. -/
def splitSlash (s : String) : List String := (splitSlashGo s.data).map String.mk

/-- `Path(project_name) / directory / filename` as assembled by `_write_file`:
when `directory` is empty the file sits directly under the project root. -/
def filePath (name directory filename : String) : List String :=
  if directory = "" then [name, filename]
  else name :: splitSlash directory ++ [filename]

/-- The part of `filePath` below the project root. -/
def relPath (directory filename : String) : List String :=
  if directory = "" then [filename]
  else splitSlash directory ++ [filename]

/-- `Path(project_name) / directory` for one entry of the planned directory
list (`directory` may be `""`, meaning the project root itself). -/
def dirPath (name d : String) : List String :=
  if d = "" then [name] else name :: splitSlash d

/-- `StructureGenerator._write_file` (source lines 494-505): first
`file_path.parent.mkdir(parents=True, exist_ok=True)`, then
`open(file_path, 'w').write(content)`.  The parent chain is created whether or
not it was in the planned directory list; an existing file is silently
overwritten.  The returned flag is `true` iff the open succeeded; on failure
the exception propagates to the caller (there is no handler here). -/
def writeFile (ok : List String → Bool) (fs : FS) (p : List String)
    (content : String) : FS × Bool :=
  let fs1 := mkdirParents fs p.dropLast
  if ok p then
    ({ fs1 with file := fun q => if q = p then some content else fs1.file q }, true)
  else (fs1, false)

/-! ## Content producers -/

/-- Python `str.title()` on the ASCII alphabet: a letter that follows a
non-letter is uppercased, a letter that follows a letter is lowercased. -/
def pyTitleGo : Bool → List Char → List Char
  | _, [] => []
  | prevAlpha, c :: rest =>
    (if prevAlpha then c.toLower else c.toUpper) :: pyTitleGo c.isAlpha rest

/-- Python `str.title()`. -/
def pyTitle (s : String) : String := String.mk (pyTitleGo false s.data)

/-- Python `s.replace("-", " ")`: for the single-character pattern this is a
character-wise substitution. -/
def replaceDash (s : String) : String :=
  String.mk (s.data.map (fun c => if c = '-' then ' ' else c))

/-- The display form `service_name.replace("-", " ").title()` used throughout
`_get_service_main`. -/
def displayName (serviceName : String) : String :=
  pyTitle (replaceDash serviceName)

/-- Opening section of `_get_service_main`'s f-string, up to (excluding) the
`title=` line of the `FastAPI(...)` call. -/
def mainPartA (serviceName : String) : String :=
  "\"\"\"\n" ++ displayName serviceName ++ " Service Main Application\n\"\"\"\n\nfrom fastapi import FastAPI, HTTPException\nfrom fastapi.middleware.cors import CORSMiddleware\nfrom packages.common.logging.setup import setup_logging\nfrom packages.common.config.settings import get_settings\nimport logging\n\n# Setup logging\nsetup_logging()\nlogger = logging.getLogger(__name__)\n\n# Get settings\nsettings = get_settings()\n\n# Create FastAPI app\napp = FastAPI(\n"

/-- The application title field of the generated main entrypoint:
`title="{display form} Service",`. -/
def mainTitleField (serviceName : String) : String :=
  "    title=\"" ++ displayName serviceName ++ " Service\",\n"

/-- Middle section of `_get_service_main`'s f-string: description and version
fields, CORS middleware, and the root route (whose message carries the display
form). -/
def mainPartB (serviceName : String) : String :=
  "    description=\"PRISM Carbon Registry - " ++ displayName serviceName ++ " Service\",\n    version=\"1.0.0\",\n)\n\n# Add CORS middleware\napp.add_middleware(\n    CORSMiddleware,\n    allow_origins=[\"*\"],  # Configure appropriately for production\n    allow_credentials=True,\n    allow_methods=[\"*\"],\n    allow_headers=[\"*\"],\n)\n\n@app.get(\"/\")\nasync def root():\n    return \x7b\"message\": \"" ++ displayName serviceName ++ " Service is running\"\x7d\n\n"

/-- The health-check field of the generated main entrypoint: the `/health`
route whose payload interpolates the raw `service_name`. -/
def mainHealthField (serviceName : String) : String :=
  "@app.get(\"/health\")\nasync def health_check():\n    return \x7b\"status\": \"healthy\", \"service\": \"" ++ serviceName ++ "\"\x7d\n"

/-- Closing section of `_get_service_main`'s f-string: the
`if __name__ == "__main__"` block. -/
def mainPartC : String :=
  "\nif __name__ == \"__main__\":\n    import uvicorn\n    uvicorn.run(app, host=\"0.0.0.0\", port=8000)\n"

/-- `StructureGenerator._get_service_main` (source lines 2044-2089): the full
f-string, assembled from the sections above in source order. -/
def serviceMain (serviceName : String) : String :=
  mainPartA serviceName ++ mainTitleField serviceName ++ mainPartB serviceName
    ++ mainHealthField serviceName ++ mainPartC

/-- `StructureGenerator._get_service_dockerfile` (source lines 2091-2117): the
f-string contains no interpolation, so the parameter is unused. -/
def serviceDockerfile (serviceName : String) : String :=
  "FROM python:3.11-slim\n\nWORKDIR /app\n\n# Install system dependencies\nRUN apt-get update && apt-get install -y \\\n    gcc \\\n    && rm -rf /var/lib/apt/lists/*\n\n# Copy requirements and install Python dependencies\nCOPY requirements.txt .\nRUN pip install --no-cache-dir -r requirements.txt\n\n# Copy application code\nCOPY . .\n\n# Expose port\nEXPOSE 8000\n\n# Health check\nHEALTHCHECK --interval=30s --timeout=30s --start-period=5s --retries=3 \\\n    CMD curl -f http://localhost:8000/health || exit 1\n\n# Run application\nCMD [\"uvicorn\", \"app.main:app\", \"--host\", \"0.0.0.0\", \"--port\", \"8000\"]\n"

/-- `base_requirements` of `_get_service_requirements`. -/
def serviceRequirementsBase : String :=
  "fastapi>=0.104.0\nuvicorn[standard]>=0.24.0\npydantic>=2.4.0\nsqlalchemy>=2.0.0\nalembic>=1.12.0\npsycopg2-binary>=2.9.0\nredis>=5.0.0\ncelery>=5.3.0\npython-multipart>=0.0.6\npython-jose[cryptography]>=3.3.0\npasslib[bcrypt]>=1.7.4\npython-dotenv>=1.0.0\nrequests>=2.31.0\n"

/-- The `service_specific` dictionary of `_get_service_requirements`. -/
def serviceSpecificRequirements : List (String × String) :=
  [("user-service", "bcrypt>=4.0.0\nemail-validator>=2.0.0\n"),
   ("project-service", "PyPDF2>=3.0.0\nPillow>=10.0.0\nopenai>=1.0.0\n"),
   ("validation-service", "scikit-learn>=1.3.0\nnumpy>=1.24.0\n"),
   ("registry-service", "web3>=6.0.0\nipfshttpclient>=0.8.0\n"),
   ("exchange-service", "websockets>=11.0.0\n"),
   ("dmrv-service", "gdal>=3.7.0\nrasterio>=1.3.0\n")]

/-- `StructureGenerator._get_service_requirements` (source lines 2119-2144):
`base_requirements + service_specific.get(service_name, '')`. -/
def serviceRequirements (serviceName : String) : String :=
  serviceRequirementsBase
    ++ ((serviceSpecificRequirements.lookup serviceName).getD "")

/-- How the content of one planned file is produced in the source: an inline
string literal of the engine code (`lit`), an inline literal of
`_get_user_service_files`'s dictionary (`inline`, opaque payload keyed by
origin), a call to a zero-argument static template method (`tplRef`, opaque
payload, and a call to a method absent from the source raises
`AttributeError`), or a call to one of the concretely embedded per-service
producers. -/
inductive ContentSpec where
  | lit (s : String)
  | inline (key : String)
  | tplRef (method : String)
  | svcMain (service : String)
  | svcDockerfile (service : String)
  | svcRequirements (service : String)
deriving DecidableEq

/-- The 40 `_get_*` template methods that are actually defined in the source
file.  The other 51 methods the script calls do not exist; calling them raises
`AttributeError`. -/
def definedTemplates : List String :=
  ["_get_api_client", "_get_auth_decorators", "_get_auth_middleware",
   "_get_business_exceptions", "_get_carbon_token_contract",
   "_get_ci_workflow", "_get_database_base", "_get_database_session",
   "_get_database_utils", "_get_docker_compose", "_get_docker_compose_prod",
   "_get_enums", "_get_env_example", "_get_environment",
   "_get_exception_handlers", "_get_exceptions_base", "_get_frontend_app_tsx",
   "_get_frontend_package_json", "_get_gitignore", "_get_hedera_client",
   "_get_jwt_handler", "_get_k8s_namespace", "_get_logging_formatters",
   "_get_logging_setup", "_get_main_readme", "_get_makefile",
   "_get_message_types", "_get_models_base", "_get_project_model",
   "_get_prometheus_config", "_get_publishers", "_get_service_dockerfile",
   "_get_service_main", "_get_service_requirements", "_get_settings",
   "_get_setup_script", "_get_terraform_main", "_get_user_model",
   "_get_user_service_files", "_get_validation_utils"]

/-- Evaluate one content entry; `none` models the `AttributeError` raised when
the referenced template method is not defined in the source. -/
def evalContent (tpl : String → String) : ContentSpec → Option String
  | .lit s => some s
  | .inline key => some (tpl key)
  | .tplRef m => if definedTemplates.contains m then some (tpl m) else none
  | .svcMain s => some (serviceMain s)
  | .svcDockerfile s => some (serviceDockerfile s)
  | .svcRequirements s => some (serviceRequirements s)

/-! ## The plan data (transcribed from the source) -/

/-- The literal `directories` list of `_create_directories`
(source lines 47-244), in source order; `""` is the project root itself. -/
def directories : List String :=
  ["",
   "packages/common/database", "packages/common/models",
   "packages/common/auth", "packages/common/messaging",
   "packages/common/config", "packages/common/exceptions",
   "packages/common/logging", "packages/common/utils",
   "packages/blockchain/hedera", "packages/blockchain/contracts",
   "packages/blockchain/interfaces",
   "services/api-gateway/app/middleware", "services/api-gateway/app/routing",
   "services/api-gateway/app/auth", "services/api-gateway/config",
   "services/user-service/app/domain/entities",
   "services/user-service/app/domain/services",
   "services/user-service/app/domain/repositories",
   "services/user-service/app/domain/exceptions",
   "services/user-service/app/infrastructure/database/repositories",
   "services/user-service/app/infrastructure/database/migrations",
   "services/user-service/app/infrastructure/external",
   "services/user-service/app/infrastructure/messaging",
   "services/user-service/app/application/commands",
   "services/user-service/app/application/queries",
   "services/user-service/app/application/dto",
   "services/user-service/app/application/events",
   "services/user-service/app/presentation/api/v1/routes",
   "services/user-service/app/presentation/api/v1/schemas",
   "services/user-service/app/presentation/api/middleware",
   "services/user-service/app/presentation/events",
   "services/user-service/tests/unit", "services/user-service/tests/integration",
   "services/user-service/alembic",
   "services/project-service/app/domain/entities",
   "services/project-service/app/domain/services",
   "services/project-service/app/domain/repositories",
   "services/project-service/app/infrastructure/database",
   "services/project-service/app/infrastructure/file_storage",
   "services/project-service/app/infrastructure/ai",
   "services/project-service/app/application/commands",
   "services/project-service/app/application/queries",
   "services/project-service/app/application/dto",
   "services/project-service/app/presentation/api/v1/routes",
   "services/project-service/app/presentation/api/v1/schemas",
   "services/project-service/tests",
   "services/validation-service/app/domain/entities",
   "services/validation-service/app/domain/services",
   "services/validation-service/app/domain/repositories",
   "services/validation-service/app/infrastructure/ai",
   "services/validation-service/app/infrastructure/blockchain",
   "services/validation-service/app/application",
   "services/validation-service/app/presentation",
   "services/validation-service/tests",
   "services/registry-service/app/domain/entities",
   "services/registry-service/app/domain/services",
   "services/registry-service/app/domain/repositories",
   "services/registry-service/app/infrastructure/blockchain",
   "services/registry-service/app/infrastructure/ipfs",
   "services/registry-service/app/application",
   "services/registry-service/app/presentation",
   "services/registry-service/tests",
   "services/exchange-service/app/domain/entities",
   "services/exchange-service/app/domain/services",
   "services/exchange-service/app/domain/repositories",
   "services/exchange-service/app/infrastructure/matching",
   "services/exchange-service/app/infrastructure/websockets",
   "services/exchange-service/app/application",
   "services/exchange-service/app/presentation",
   "services/exchange-service/tests",
   "services/dmrv-service/app/domain/entities",
   "services/dmrv-service/app/domain/services",
   "services/dmrv-service/app/domain/repositories",
   "services/dmrv-service/app/infrastructure/satellite",
   "services/dmrv-service/app/infrastructure/iot",
   "services/dmrv-service/app/infrastructure/gis",
   "services/dmrv-service/app/infrastructure/ml",
   "services/dmrv-service/app/application",
   "services/dmrv-service/app/presentation",
   "services/dmrv-service/tests",
   "services/governance-service/app/domain/entities",
   "services/governance-service/app/domain/services",
   "services/governance-service/app/domain/repositories",
   "services/governance-service/app/infrastructure",
   "services/governance-service/app/application",
   "services/governance-service/app/presentation",
   "services/governance-service/tests",
   "services/notification-service/app/domain",
   "services/notification-service/app/infrastructure/email",
   "services/notification-service/app/infrastructure/sms",
   "services/notification-service/app/infrastructure/push",
   "services/notification-service/app/application",
   "services/notification-service/app/presentation",
   "services/notification-service/tests",
   "services/file-service/app/domain/entities",
   "services/file-service/app/domain/services",
   "services/file-service/app/domain/repositories",
   "services/file-service/app/infrastructure/storage",
   "services/file-service/app/infrastructure/processing",
   "services/file-service/app/infrastructure/security",
   "services/file-service/app/application",
   "services/file-service/app/presentation",
   "services/file-service/tests",
   "frontend/web-app/public",
   "frontend/web-app/src/components/common",
   "frontend/web-app/src/components/forms",
   "frontend/web-app/src/components/charts",
   "frontend/web-app/src/components/tables",
   "frontend/web-app/src/pages/public",
   "frontend/web-app/src/pages/dashboard",
   "frontend/web-app/src/pages/projects",
   "frontend/web-app/src/pages/validation",
   "frontend/web-app/src/pages/registry",
   "frontend/web-app/src/pages/exchange",
   "frontend/web-app/src/pages/admin",
   "frontend/web-app/src/services/api",
   "frontend/web-app/src/services/auth",
   "frontend/web-app/src/services/websockets",
   "frontend/web-app/src/hooks",
   "frontend/web-app/src/context",
   "frontend/web-app/src/utils",
   "frontend/web-app/src/types",
   "frontend/web-app/src/constants",
   "frontend/web-app/src/assets",
   "frontend/web-app/tests",
   "frontend/web-app/build",
   "frontend/mobile-app/android", "frontend/mobile-app/ios",
   "frontend/mobile-app/src", "frontend/mobile-app/tests",
   "frontend/admin-panel/src", "frontend/admin-panel/tests",
   "infrastructure/kubernetes/base",
   "infrastructure/kubernetes/overlays/development",
   "infrastructure/kubernetes/overlays/staging",
   "infrastructure/kubernetes/overlays/production",
   "infrastructure/kubernetes/charts",
   "infrastructure/terraform/modules",
   "infrastructure/terraform/environments",
   "infrastructure/docker/base", "infrastructure/docker/production",
   "infrastructure/monitoring/prometheus",
   "infrastructure/monitoring/grafana",
   "infrastructure/monitoring/alertmanager",
   "tools/scripts", "tools/generators", "tools/linting", "tools/testing",
   "docs/api", "docs/architecture", "docs/deployment", "docs/user-guides",
   "docs/development",
   "tests/integration", "tests/e2e", "tests/performance", "tests/fixtures",
   ".github/workflows"]

/-- The `files` dictionary of `_create_root_files` (source lines 254-262). -/
def rootFiles : List (String × ContentSpec) :=
  [("README.md", .tplRef "_get_main_readme"),
   (".gitignore", .tplRef "_get_gitignore"),
   (".env.example", .tplRef "_get_env_example"),
   ("docker-compose.yml", .tplRef "_get_docker_compose"),
   ("docker-compose.prod.yml", .tplRef "_get_docker_compose_prod"),
   ("Makefile", .tplRef "_get_makefile"),
   ("requirements.txt", .lit "# Root level requirements for development tools\npytest>=7.0.0\nblack>=22.0.0\nflake8>=4.0.0\nmypy>=0.910\npre-commit>=2.15.0")]

/-- The `common_files` dictionary of `_create_shared_packages`
(source lines 271-305). -/
def commonFiles : List (String × ContentSpec) :=
  [("packages/common/__init__.py", .lit ""),
   ("packages/common/database/__init__.py", .lit ""),
   ("packages/common/database/base.py", .tplRef "_get_database_base"),
   ("packages/common/database/session.py", .tplRef "_get_database_session"),
   ("packages/common/database/utils.py", .tplRef "_get_database_utils"),
   ("packages/common/models/__init__.py", .lit ""),
   ("packages/common/models/base.py", .tplRef "_get_models_base"),
   ("packages/common/models/user.py", .tplRef "_get_user_model"),
   ("packages/common/models/project.py", .tplRef "_get_project_model"),
   ("packages/common/models/enums.py", .tplRef "_get_enums"),
   ("packages/common/auth/__init__.py", .lit ""),
   ("packages/common/auth/jwt_handler.py", .tplRef "_get_jwt_handler"),
   ("packages/common/auth/middleware.py", .tplRef "_get_auth_middleware"),
   ("packages/common/auth/decorators.py", .tplRef "_get_auth_decorators"),
   ("packages/common/messaging/__init__.py", .lit ""),
   ("packages/common/messaging/event_bus.py", .tplRef "_get_event_bus"),
   ("packages/common/messaging/message_types.py", .tplRef "_get_message_types"),
   ("packages/common/messaging/publishers.py", .tplRef "_get_publishers"),
   ("packages/common/config/__init__.py", .lit ""),
   ("packages/common/config/settings.py", .tplRef "_get_settings"),
   ("packages/common/config/environment.py", .tplRef "_get_environment"),
   ("packages/common/exceptions/__init__.py", .lit ""),
   ("packages/common/exceptions/base.py", .tplRef "_get_exceptions_base"),
   ("packages/common/exceptions/business.py", .tplRef "_get_business_exceptions"),
   ("packages/common/exceptions/handlers.py", .tplRef "_get_exception_handlers"),
   ("packages/common/logging/__init__.py", .lit ""),
   ("packages/common/logging/setup.py", .tplRef "_get_logging_setup"),
   ("packages/common/logging/formatters.py", .tplRef "_get_logging_formatters"),
   ("packages/common/logging/middleware.py", .tplRef "_get_logging_middleware"),
   ("packages/common/utils/__init__.py", .lit ""),
   ("packages/common/utils/validation.py", .tplRef "_get_validation_utils"),
   ("packages/common/utils/serialization.py", .tplRef "_get_serialization_utils"),
   ("packages/common/utils/helpers.py", .tplRef "_get_helper_utils")]

/-- The `blockchain_files` dictionary of `_create_shared_packages`
(source lines 308-317). -/
def blockchainFiles : List (String × ContentSpec) :=
  [("packages/blockchain/__init__.py", .lit ""),
   ("packages/blockchain/hedera/__init__.py", .lit ""),
   ("packages/blockchain/hedera/client.py", .tplRef "_get_hedera_client"),
   ("packages/blockchain/hedera/contracts.py", .tplRef "_get_hedera_contracts"),
   ("packages/blockchain/hedera/utils.py", .tplRef "_get_hedera_utils"),
   ("packages/blockchain/contracts/CarbonAssetToken.sol", .tplRef "_get_carbon_token_contract"),
   ("packages/blockchain/interfaces/__init__.py", .lit ""),
   ("packages/blockchain/interfaces/registry.py", .tplRef "_get_registry_interface")]

/-- The `services` list of `_create_services` (source lines 329-333). -/
def services : List String :=
  ["api-gateway", "user-service", "project-service", "validation-service",
   "registry-service", "exchange-service", "dmrv-service",
   "governance-service", "notification-service", "file-service"]

/-- The base `files` dictionary of `_create_service` (source lines 343-352). -/
def serviceBaseFiles (s : String) : List (String × ContentSpec) :=
  [("Dockerfile", .svcDockerfile s),
   ("requirements.txt", .svcRequirements s),
   ("app/__init__.py", .lit ""),
   ("app/main.py", .svcMain s),
   ("tests/__init__.py", .lit ""),
   ("tests/conftest.py", .tplRef "_get_test_conftest"),
   ("tests/unit/__init__.py", .lit ""),
   ("tests/integration/__init__.py", .lit "")]

/-- The dictionary returned by `_get_user_service_files` (source lines
2146-2224); its three values are inline string literals, treated as opaque
payload. -/
def userServiceFiles : List (String × ContentSpec) :=
  [("app/domain/entities/user.py",
    .inline "user_service_files:app/domain/entities/user.py"),
   ("app/domain/services/user_service.py",
    .inline "user_service_files:app/domain/services/user_service.py"),
   ("app/presentation/api/v1/routes/users.py",
    .inline "user_service_files:app/presentation/api/v1/routes/users.py")]

/-- Whether `_create_service` extends the base dictionary for a service: no
extension, an extension by a defined method's entries, or a call to a method
that does not exist in the source (`_get_project_service_files`,
`_get_api_gateway_files`), which raises `AttributeError`. -/
inductive Extras where
  | noneE
  | inlineE (entries : List (String × ContentSpec))
  | missingE

/-- The `if service_name == ... : files.update(...)` chain of `_create_service`
(source lines 355-360). -/
def serviceExtrasOf (s : String) : Extras :=
  if s = "user-service" then .inlineE userServiceFiles
  else if s = "project-service" then .missingE
  else if s = "api-gateway" then .missingE
  else .noneE

/-- The `web_files` dictionary of `_create_frontend` (source lines 372-389). -/
def webFiles : List (String × ContentSpec) :=
  [("package.json", .tplRef "_get_frontend_package_json"),
   ("Dockerfile", .tplRef "_get_frontend_dockerfile"),
   ("public/index.html", .tplRef "_get_frontend_index_html"),
   ("src/index.tsx", .tplRef "_get_frontend_index_tsx"),
   ("src/App.tsx", .tplRef "_get_frontend_app_tsx"),
   ("src/components/common/Button.tsx", .tplRef "_get_button_component"),
   ("src/components/common/Modal.tsx", .tplRef "_get_modal_component"),
   ("src/pages/public/HomePage.tsx", .tplRef "_get_home_page"),
   ("src/pages/dashboard/DashboardPage.tsx", .tplRef "_get_dashboard_page"),
   ("src/services/api/client.ts", .tplRef "_get_api_client"),
   ("src/services/auth/authService.ts", .tplRef "_get_auth_service"),
   ("src/hooks/useAuth.ts", .tplRef "_get_use_auth_hook"),
   ("src/context/AuthContext.tsx", .tplRef "_get_auth_context"),
   ("src/types/index.ts", .tplRef "_get_frontend_types"),
   ("src/constants/index.ts", .tplRef "_get_frontend_constants"),
   ("tests/setup.ts", .tplRef "_get_frontend_test_setup")]

/-- The `infra_files` dictionary of `_create_infrastructure`
(source lines 400-414). -/
def infraFiles : List (String × ContentSpec) :=
  [("kubernetes/base/namespace.yaml", .tplRef "_get_k8s_namespace"),
   ("kubernetes/base/configmap.yaml", .tplRef "_get_k8s_configmap"),
   ("kubernetes/overlays/development/kustomization.yaml", .tplRef "_get_k8s_kustomization_dev"),
   ("terraform/main.tf", .tplRef "_get_terraform_main"),
   ("terraform/variables.tf", .tplRef "_get_terraform_variables"),
   ("terraform/outputs.tf", .tplRef "_get_terraform_outputs"),
   ("monitoring/prometheus/prometheus.yml", .tplRef "_get_prometheus_config"),
   ("monitoring/grafana/dashboard.json", .tplRef "_get_grafana_dashboard")]

/-- The `tools_files` dictionary of `_create_tools` (source lines 425-434). -/
def toolsFiles : List (String × ContentSpec) :=
  [("scripts/setup.sh", .tplRef "_get_setup_script"),
   ("scripts/build.sh", .tplRef "_get_build_script"),
   ("scripts/deploy.sh", .tplRef "_get_deploy_script"),
   ("scripts/test.sh", .tplRef "_get_test_script"),
   ("scripts/migrate.sh", .tplRef "_get_migrate_script"),
   ("linting/pyproject.toml", .tplRef "_get_pyproject_toml"),
   ("linting/.flake8", .tplRef "_get_flake8_config"),
   ("testing/pytest.ini", .tplRef "_get_pytest_config")]

/-- The `docs_files` dictionary of `_create_documentation`
(source lines 445-454). -/
def docsFiles : List (String × ContentSpec) :=
  [("README.md", .tplRef "_get_docs_readme"),
   ("architecture/overview.md", .tplRef "_get_architecture_overview"),
   ("architecture/services.md", .tplRef "_get_services_architecture"),
   ("deployment/local.md", .tplRef "_get_local_deployment"),
   ("deployment/production.md", .tplRef "_get_production_deployment"),
   ("development/getting-started.md", .tplRef "_get_getting_started"),
   ("development/contributing.md", .tplRef "_get_contributing_guide"),
   ("api/openapi.yml", .tplRef "_get_openapi_spec")]

/-- The `test_files` dictionary of `_create_tests` (source lines 465-470). -/
def testFiles : List (String × ContentSpec) :=
  [("integration/test_user_flow.py", .tplRef "_get_integration_test"),
   ("e2e/test_project_creation.py", .tplRef "_get_e2e_test"),
   ("performance/test_load.py", .tplRef "_get_performance_test"),
   ("fixtures/sample_data.json", .tplRef "_get_test_fixtures")]

/-- The `workflow_files` dictionary of `_create_github_workflows`
(source lines 481-486). -/
def workflowFiles : List (String × ContentSpec) :=
  [("ci.yml", .tplRef "_get_ci_workflow"),
   ("cd.yml", .tplRef "_get_cd_workflow"),
   ("security.yml", .tplRef "_get_security_workflow"),
   ("release.yml", .tplRef "_get_release_workflow")]

/-- The trailing `_write_file(".github", "PULL_REQUEST_TEMPLATE.md", ...)`
call of `_create_github_workflows` (source line 492). -/
def prFiles : List (String × ContentSpec) :=
  [("PULL_REQUEST_TEMPLATE.md", .tplRef "_get_pr_template")]

/-! ## Execution of the generator -/

/-- The `(directory, filename)` pair that a group loop passes to `_write_file`
for dictionary key `k`: `path_parts = k.split("/")`,
`directory = "/".join(prefix + path_parts[:-1])`, `filename = path_parts[-1]`
(the root-files and workflow loops pass their directory string directly, which
coincides with taking `prefix` to be that directory's components). -/
def entryArgs (pfx : List String) (k : String) : String × String :=
  let parts := splitSlash k
  (String.intercalate "/" (pfx ++ parts.dropLast), parts.getLastD "")

/-- The absolute path `_write_file` writes for dictionary key `k` of a group
with prefix `pfx`. -/
def entryPath (name : String) (pfx : List String) (k : String) : List String :=
  filePath name (entryArgs pfx k).1 (entryArgs pfx k).2

/-- `entryPath` below the project root. -/
def entryRel (pfx : List String) (k : String) : List String :=
  relPath (entryArgs pfx k).1 (entryArgs pfx k).2

/-- Evaluate a dictionary of content entries in order, as Python evaluates the
dictionary literal; `none` when any entry's template method is missing
(`AttributeError` aborts the construction, so nothing of the group is
written). -/
def computeAll (tpl : String → String) :
    List (String × ContentSpec) → Option (List (String × String))
  | [] => some []
  | (k, c) :: rest =>
    match evalContent tpl c, computeAll tpl rest with
    | some s, some l => some ((k, s) :: l)
    | _, _ => none

/-- Write the computed entries of one group in order; the Boolean is `true`
when a write failed, in which case the remaining entries are skipped (the
exception propagates out of the loop). -/
def execWrites (ok : List String → Bool) (name : String) (pfx : List String)
    (fs : FS) : List (String × String) → FS × Bool
  | [] => (fs, false)
  | (k, content) :: rest =>
    let r := writeFile ok fs (entryPath name pfx k) content
    if r.2 then execWrites ok name pfx r.1 rest else (r.1, true)

/-- One `_create_*` file group: build the dictionary (computing every content
value), then write every entry.  The Boolean is `true` when an exception was
raised. -/
def execGroup (tpl : String → String) (ok : List String → Bool) (name : String)
    (pfx : List String) (fs : FS) (entries : List (String × ContentSpec)) :
    FS × Bool :=
  match computeAll tpl entries with
  | none => (fs, true)
  | some l => execWrites ok name pfx fs l

/-- `_create_service` for one service: base dictionary, then the
service-specific `files.update(...)`, then the write loop. -/
def execService (tpl : String → String) (ok : List String → Bool)
    (name : String) (fs : FS) (s : String) : FS × Bool :=
  match computeAll tpl (serviceBaseFiles s) with
  | none => (fs, true)
  | some base =>
    match serviceExtrasOf s with
    | .missingE => (fs, true)
    | .noneE => execWrites ok name ["services/" ++ s] fs base
    | .inlineE extra =>
      match computeAll tpl extra with
      | none => (fs, true)
      | some ex => execWrites ok name ["services/" ++ s] fs (base ++ ex)

/-- The loop of `_create_services` over the fixed service list. -/
def execServices (tpl : String → String) (ok : List String → Bool)
    (name : String) (fs : FS) : List String → FS × Bool
  | [] => (fs, false)
  | s :: rest =>
    let r := execService tpl ok name fs s
    if r.2 then (r.1, true) else execServices tpl ok name r.1 rest

/-- The loop of `_create_directories`: `(base_path / d).mkdir(parents=True,
exist_ok=True)` for each planned directory. -/
def execMkdirs (name : String) (fs : FS) : List String → FS
  | [] => fs
  | d :: rest => execMkdirs name (mkdirParents fs (dirPath name d)) rest

/-- Sequencing with exception propagation: once a step has raised, the
following steps do not execute. -/
def step (acc : FS × Bool) (f : FS → FS × Bool) : FS × Bool :=
  if acc.2 then acc else f acc.1

/-- `StructureGenerator.create_structure` (source lines 20-43): the directory
phase, then each file group in source order; an exception raised by any group
skips all later groups. -/
def createStructure (tpl : String → String) (ok : List String → Bool)
    (name : String) (fs : FS) : FS × Bool :=
  step (step (step (step (step (step (step (step (step
    (execGroup tpl ok name [] (execMkdirs name fs directories) rootFiles)
    (fun fs1 => execGroup tpl ok name [] fs1 (commonFiles ++ blockchainFiles)))
    (fun fs1 => execServices tpl ok name fs1 services))
    (fun fs1 => execGroup tpl ok name ["frontend/web-app"] fs1 webFiles))
    (fun fs1 => execGroup tpl ok name ["infrastructure"] fs1 infraFiles))
    (fun fs1 => execGroup tpl ok name ["tools"] fs1 toolsFiles))
    (fun fs1 => execGroup tpl ok name ["docs"] fs1 docsFiles))
    (fun fs1 => execGroup tpl ok name ["tests"] fs1 testFiles))
    (fun fs1 => execGroup tpl ok name [".github/workflows"] fs1 workflowFiles))
    (fun fs1 => execGroup tpl ok name [".github"] fs1 prFiles)

/-- `StructureGenerator.run` (source lines 3385-3391): `create_structure`
inside `try/except`; any exception is caught at this top level, an error is
printed, and the process exits with status 1, otherwise 0. -/
def run (tpl : String → String) (ok : List String → Bool) (name : String)
    (fs : FS) : FS × Nat :=
  let r := createStructure tpl ok name fs
  (r.1, if r.2 then 1 else 0)

/-- `main` (source lines 3393-3398): the project name is
`sys.argv[1] if len(sys.argv) > 1 else "prism-carbon-registry"`. -/
def mainProjectName (argv : List String) : String :=
  match argv with
  | _ :: a :: _ => a
  | _ => "prism-carbon-registry"

/-- The oracle of an environment in which every write succeeds. -/
def okAll : List String → Bool := fun _ => true

/-! ## Derived plan data -/

/-- The per-group relative paths of every file the plan declares, in plan
order (for the two services whose `files.update` call targets a missing
method, no extra entries exist to enumerate). -/
def plannedRels : List (List String) :=
  rootFiles.map (fun e => entryRel [] e.1)
    ++ (commonFiles ++ blockchainFiles).map (fun e => entryRel [] e.1)
    ++ services.flatMap (fun s =>
        (serviceBaseFiles s ++
          (match serviceExtrasOf s with | .inlineE l => l | _ => [])).map
          (fun e => entryRel ["services/" ++ s] e.1))
    ++ webFiles.map (fun e => entryRel ["frontend/web-app"] e.1)
    ++ infraFiles.map (fun e => entryRel ["infrastructure"] e.1)
    ++ toolsFiles.map (fun e => entryRel ["tools"] e.1)
    ++ docsFiles.map (fun e => entryRel ["docs"] e.1)
    ++ testFiles.map (fun e => entryRel ["tests"] e.1)
    ++ workflowFiles.map (fun e => entryRel [".github/workflows"] e.1)
    ++ prFiles.map (fun e => entryRel [".github"] e.1)

/-- The absolute path of every file the plan declares, under the project
root. -/
def plannedFilePaths (name : String) : List (List String) :=
  plannedRels.map (fun r => name :: r)

/-- The write attempts of the root-files group: the paths and contents
`_create_root_files` passes to `_write_file`, in order.  (These are the only
writes a run of the script ever performs: the next group's dictionary
construction calls the missing `_get_event_bus` method and aborts the run.) -/
def rootAttempts (name : String) (tpl : String → String) :
    List (List String × String) :=
  [([name, "README.md"], tpl "_get_main_readme"),
   ([name, ".gitignore"], tpl "_get_gitignore"),
   ([name, ".env.example"], tpl "_get_env_example"),
   ([name, "docker-compose.yml"], tpl "_get_docker_compose"),
   ([name, "docker-compose.prod.yml"], tpl "_get_docker_compose_prod"),
   ([name, "Makefile"], tpl "_get_makefile"),
   ([name, "requirements.txt"], "# Root level requirements for development tools\npytest>=7.0.0\nblack>=22.0.0\nflake8>=4.0.0\nmypy>=0.910\npre-commit>=2.15.0")]

/-- Write a list of (path, content) attempts in order, stopping at the first
failure; used to characterize the concrete run. -/
def execAttempts (ok : List String → Bool) (fs : FS) :
    List (List String × String) → FS × Bool
  | [] => (fs, false)
  | (p, c) :: rest =>
    let r := writeFile ok fs p c
    if r.2 then execAttempts ok r.1 rest else (r.1, true)

/-- The content the last write of an attempt list leaves at path `q` (later
entries shadow earlier ones). -/
def lastContent (l : List (List String × String)) (q : List String) :
    Option String :=
  match l with
  | [] => none
  | (p, c) :: rest =>
    match lastContent rest q with
    | some c' => some c'
    | none => if q = p then some c else none

/-! ## The event trace

For the temporal claims we also record, in execution order, which observable
events a run performs: creating a planned directory (`mkdirE`), computing the
content of one dictionary entry (`computeE`, a pure step of plan
construction), and attempting the write of one file (`writeE`).  The trace
mirrors the execution functions above: computing a dictionary aborts at the
first missing template method, and a failed write ends the trace. -/

inductive Event where
  | mkdirE (d : String)
  | computeE (key : String)
  | writeE (p : List String)
deriving DecidableEq

/-- Whether an event is the creation of a planned directory. -/
def isMkdirE : Event → Bool
  | .mkdirE _ => true
  | _ => false

/-- Whether an event is a file-write attempt. -/
def isWriteE : Event → Bool
  | .writeE _ => true
  | _ => false

/-- Whether an event is a content computation (plan construction). -/
def isComputeE : Event → Bool
  | .computeE _ => true
  | _ => false

/-- Events of building one dictionary: one `computeE` per entry whose content
producer exists, stopping at the first missing method (flag `true`). -/
def computeEvs (tpl : String → String) :
    List (String × ContentSpec) → List Event × Bool
  | [] => ([], false)
  | (k, c) :: rest =>
    match evalContent tpl c with
    | none => ([], true)
    | some _ =>
      let r := computeEvs tpl rest
      (.computeE k :: r.1, r.2)

/-- Events of one group's write loop: one `writeE` per attempted write,
stopping after the first failed attempt (flag `true`). -/
def writeEvs (ok : List String → Bool) (name : String) (pfx : List String) :
    List String → List Event × Bool
  | [] => ([], false)
  | k :: rest =>
    let p := entryPath name pfx k
    if ok p then
      let r := writeEvs ok name pfx rest
      (.writeE p :: r.1, r.2)
    else ([.writeE p], true)

/-- Events of one `_create_*` file group: all content computations, then all
writes. -/
def groupEvs (tpl : String → String) (ok : List String → Bool) (name : String)
    (pfx : List String) (entries : List (String × ContentSpec)) :
    List Event × Bool :=
  let c := computeEvs tpl entries
  if c.2 then (c.1, true)
  else
    let w := writeEvs ok name pfx (entries.map Prod.fst)
    (c.1 ++ w.1, w.2)

/-- Events of `_create_service` for one service. -/
def serviceEvs (tpl : String → String) (ok : List String → Bool)
    (name : String) (s : String) : List Event × Bool :=
  let c := computeEvs tpl (serviceBaseFiles s)
  if c.2 then (c.1, true)
  else
    match serviceExtrasOf s with
    | .missingE => (c.1, true)
    | .noneE =>
      let w := writeEvs ok name ["services/" ++ s]
        ((serviceBaseFiles s).map Prod.fst)
      (c.1 ++ w.1, w.2)
    | .inlineE extra =>
      let ce := computeEvs tpl extra
      if ce.2 then (c.1 ++ ce.1, true)
      else
        let w := writeEvs ok name ["services/" ++ s]
          ((serviceBaseFiles s ++ extra).map Prod.fst)
        (c.1 ++ ce.1 ++ w.1, w.2)

/-- Events of the `_create_services` loop. -/
def servicesEvs (tpl : String → String) (ok : List String → Bool)
    (name : String) : List String → List Event × Bool
  | [] => ([], false)
  | s :: rest =>
    let r := serviceEvs tpl ok name s
    if r.2 then (r.1, true)
    else
      let r2 := servicesEvs tpl ok name rest
      (r.1 ++ r2.1, r2.2)

/-- Sequencing of event blocks with exception propagation. -/
def stepEvs (acc : List Event × Bool) (f : Unit → List Event × Bool) :
    List Event × Bool :=
  if acc.2 then acc else
    let r := f ()
    (acc.1 ++ r.1, r.2)

/-- Events of the file-group phase of `create_structure`, in source order. -/
def bodyEvs (tpl : String → String) (ok : List String → Bool)
    (name : String) : List Event × Bool :=
  stepEvs (stepEvs (stepEvs (stepEvs (stepEvs (stepEvs (stepEvs (stepEvs
    (stepEvs (groupEvs tpl ok name [] rootFiles)
      (fun _ => groupEvs tpl ok name [] (commonFiles ++ blockchainFiles)))
      (fun _ => servicesEvs tpl ok name services))
      (fun _ => groupEvs tpl ok name ["frontend/web-app"] webFiles))
      (fun _ => groupEvs tpl ok name ["infrastructure"] infraFiles))
      (fun _ => groupEvs tpl ok name ["tools"] toolsFiles))
      (fun _ => groupEvs tpl ok name ["docs"] docsFiles))
      (fun _ => groupEvs tpl ok name ["tests"] testFiles))
      (fun _ => groupEvs tpl ok name [".github/workflows"] workflowFiles))
      (fun _ => groupEvs tpl ok name [".github"] prFiles)

/-- The complete event trace of one run of `create_structure`: the directory
phase (one `mkdirE` per planned directory, in list order), then the file
groups. -/
def execTrace (tpl : String → String) (ok : List String → Bool)
    (name : String) : List Event :=
  directories.map Event.mkdirE ++ (bodyEvs tpl ok name).1

/-- The plan-then-execute discipline claimed by the spec, as a property of an
event trace: once any side-effecting event (directory creation or file write)
has happened, no plan-construction event (`computeE`) may follow. -/
def planThenExecute : List Event → Bool
  | [] => true
  | e :: rest =>
    if isComputeE e then planThenExecute rest
    else rest.all (fun e1 => !isComputeE e1)

/-! ## Lemmas about the filesystem primitives -/

lemma mkdirParents_file (fs : FS) (p : List String) :
    (mkdirParents fs p).file = fs.file := rfl

lemma mkdirParents_isDir_mono (fs : FS) (p q : List String)
    (h : fs.isDir q = true) : (mkdirParents fs p).isDir q = true := by
  simp [mkdirParents, h]

lemma self_mem_prefixesOf (p : List String) (h : p ≠ []) : p ∈ prefixesOf p := by
  induction p with
  | nil => exact absurd rfl h
  | cons a rest ih =>
    cases rest with
    | nil => simp [prefixesOf]
    | cons b r2 =>
      simp only [prefixesOf, List.mem_cons]
      exact Or.inr (List.mem_map_of_mem _ (ih (by simp)))

lemma head?_of_mem_prefixesOf {q p : List String} (h : q ∈ prefixesOf p) :
    q.head? = p.head? := by
  cases p with
  | nil => simp [prefixesOf] at h
  | cons a rest =>
    simp only [prefixesOf, List.mem_cons, List.mem_map] at h
    rcases h with h | ⟨q1, _, h⟩ <;> subst h <;> rfl

lemma mkdirParents_isDir_self (fs : FS) (p : List String) (h : p ≠ []) :
    (mkdirParents fs p).isDir p = true := by
  simp [mkdirParents, self_mem_prefixesOf p h]

lemma mkdirParents_isDir_of_mem (fs : FS) {p q : List String}
    (h : q ∈ prefixesOf p) : (mkdirParents fs p).isDir q = true := by
  simp [mkdirParents, h]

lemma mkdirParents_isDir_src (fs : FS) {p q : List String}
    (h : (mkdirParents fs p).isDir q = true) :
    fs.isDir q = true ∨ q ∈ prefixesOf p := by
  simp only [mkdirParents, Bool.or_eq_true, decide_eq_true_eq] at h
  exact h.symm.imp id id

lemma writeFile_file_ne (ok : List String → Bool) (fs : FS)
    (p : List String) (c : String) {q : List String} (h : q ≠ p) :
    ((writeFile ok fs p c).1).file q = fs.file q := by
  unfold writeFile
  split <;> simp [h, mkdirParents]

lemma writeFile_isDir_mono (ok : List String → Bool) (fs : FS)
    (p : List String) (c : String) {q : List String} (h : fs.isDir q = true) :
    ((writeFile ok fs p c).1).isDir q = true := by
  unfold writeFile
  split <;> simp [mkdirParents, h]

lemma writeFile_file_mono (ok : List String → Bool) (fs : FS)
    (p : List String) (c : String) {q : List String} {c1 : String}
    (h : fs.file q = some c1) :
    ∃ c2, ((writeFile ok fs p c).1).file q = some c2 := by
  by_cases hq : q = p
  · subst hq
    unfold writeFile
    split
    · exact ⟨c, by simp⟩
    · exact ⟨c1, h⟩
  · exact ⟨c1, (writeFile_file_ne ok fs p c hq).trans h⟩

lemma writeFile_isDir_parent (ok : List String → Bool) (fs : FS)
    (p : List String) (c : String) {q : List String}
    (h : q ∈ prefixesOf p.dropLast) :
    ((writeFile ok fs p c).1).isDir q = true := by
  unfold writeFile
  split <;> simp [mkdirParents, h]

lemma writeFile_isDir_src (ok : List String → Bool) (fs : FS)
    (p : List String) (c : String) {q : List String}
    (h : ((writeFile ok fs p c).1).isDir q = true) :
    fs.isDir q = true ∨ q ∈ prefixesOf p.dropLast := by
  revert h
  unfold writeFile
  split <;> intro h <;>
    exact (mkdirParents_isDir_src fs h)

/-! ## Lemmas about the directory phase -/

lemma dirPath_ne_nil (name d : String) : dirPath name d ≠ [] := by
  unfold dirPath
  split <;> simp

lemma dirPath_head (name d : String) : (dirPath name d).head? = some name := by
  unfold dirPath
  split <;> rfl

lemma execMkdirs_file (name : String) (ds : List String) :
    ∀ fs : FS, (execMkdirs name fs ds).file = fs.file := by
  induction ds with
  | nil => intro fs; rfl
  | cons d rest ih => intro fs; exact ih (mkdirParents fs (dirPath name d))

lemma execMkdirs_isDir_mono (name : String) (ds : List String) :
    ∀ (fs : FS) (q : List String), fs.isDir q = true →
      (execMkdirs name fs ds).isDir q = true := by
  induction ds with
  | nil => intro fs q h; exact h
  | cons d rest ih =>
    intro fs q h
    exact ih _ q (mkdirParents_isDir_mono fs _ q h)

lemma execMkdirs_isDir_of_mem (name : String) (ds : List String) :
    ∀ (fs : FS) (d : String), d ∈ ds →
      (execMkdirs name fs ds).isDir (dirPath name d) = true := by
  induction ds with
  | nil => intro fs d h; simp at h
  | cons d1 rest ih =>
    intro fs d h
    rcases List.mem_cons.mp h with h1 | h1
    · subst h1
      exact execMkdirs_isDir_mono name rest _ _
        (mkdirParents_isDir_self fs _ (dirPath_ne_nil name d))
    · exact ih _ d h1

lemma execMkdirs_isDir_src (name : String) (ds : List String) :
    ∀ (fs : FS) (q : List String), (execMkdirs name fs ds).isDir q = true →
      fs.isDir q = true ∨ q.head? = some name := by
  induction ds with
  | nil => intro fs q h; exact Or.inl h
  | cons d rest ih =>
    intro fs q h
    rcases ih _ q h with h1 | h1
    · rcases mkdirParents_isDir_src fs h1 with h2 | h2
      · exact Or.inl h2
      · exact Or.inr ((head?_of_mem_prefixesOf h2).trans (dirPath_head name d))
    · exact Or.inr h1

/-! ## Lemmas about the write phase -/

lemma execAttempts_file_frame (ok : List String → Bool)
    (l : List (List String × String)) :
    ∀ (fs : FS) (q : List String), q ∉ l.map Prod.fst →
      ((execAttempts ok fs l).1).file q = fs.file q := by
  induction l with
  | nil => intro fs q _; rfl
  | cons e rest ih =>
    intro fs q h
    simp only [List.map_cons, List.mem_cons, not_or] at h
    show ((if (writeFile ok fs e.1 e.2).2 then _ else _ : FS × Bool).1).file q = _
    split
    · exact (ih _ q h.2).trans (writeFile_file_ne ok fs e.1 e.2 h.1)
    · exact writeFile_file_ne ok fs e.1 e.2 h.1

lemma execAttempts_isDir_mono (ok : List String → Bool)
    (l : List (List String × String)) :
    ∀ (fs : FS) (q : List String), fs.isDir q = true →
      ((execAttempts ok fs l).1).isDir q = true := by
  induction l with
  | nil => intro fs q h; exact h
  | cons e rest ih =>
    intro fs q h
    show ((if (writeFile ok fs e.1 e.2).2 then _ else _ : FS × Bool).1).isDir q = _
    split
    · exact ih _ q (writeFile_isDir_mono ok fs e.1 e.2 h)
    · exact writeFile_isDir_mono ok fs e.1 e.2 h

lemma execAttempts_file_mono (ok : List String → Bool)
    (l : List (List String × String)) :
    ∀ (fs : FS) (q : List String) (c1 : String), fs.file q = some c1 →
      ∃ c2, ((execAttempts ok fs l).1).file q = some c2 := by
  induction l with
  | nil => intro fs q c1 h; exact ⟨c1, h⟩
  | cons e rest ih =>
    intro fs q c1 h
    obtain ⟨c2, h2⟩ := writeFile_file_mono ok fs e.1 e.2 h
    show ∃ c2, ((if (writeFile ok fs e.1 e.2).2 then _ else _ : FS × Bool).1).file q = some c2
    split
    · exact ih _ q c2 h2
    · exact ⟨c2, h2⟩

lemma execAttempts_isDir_src (ok : List String → Bool)
    (l : List (List String × String)) :
    ∀ (fs : FS) (q : List String), ((execAttempts ok fs l).1).isDir q = true →
      fs.isDir q = true ∨ ∃ e ∈ l, q ∈ prefixesOf e.1.dropLast := by
  induction l with
  | nil => intro fs q h; exact Or.inl h
  | cons e rest ih =>
    intro fs q h
    revert h
    show ((if (writeFile ok fs e.1 e.2).2 then _ else _ : FS × Bool).1).isDir q = true → _
    split <;> intro h
    · rcases ih _ q h with h1 | ⟨e1, he1, h1⟩
      · rcases writeFile_isDir_src ok fs e.1 e.2 h1 with h2 | h2
        · exact Or.inl h2
        · exact Or.inr ⟨e, List.mem_cons_self e rest, h2⟩
      · exact Or.inr ⟨e1, List.mem_cons_of_mem e he1, h1⟩
    · rcases writeFile_isDir_src ok fs e.1 e.2 h with h2 | h2
      · exact Or.inl h2
      · exact Or.inr ⟨e, List.mem_cons_self e rest, h2⟩

lemma execAttempts_snd_allOk (l : List (List String × String)) :
    ∀ fs : FS, (execAttempts okAll fs l).2 = false := by
  induction l with
  | nil => intro fs; rfl
  | cons e rest ih => intro fs; exact ih _

lemma execAttempts_file_allOk (l : List (List String × String)) :
    ∀ (fs : FS) (q : List String),
      ((execAttempts okAll fs l).1).file q
        = match lastContent l q with
          | some c => some c
          | none => fs.file q := by
  induction l with
  | nil => intro fs q; rfl
  | cons e rest ih =>
    intro fs q
    show ((execAttempts okAll (writeFile okAll fs e.1 e.2).1 rest).1).file q = _
    rw [ih]
    rcases heq : lastContent rest q with _ | c1
    · simp only [lastContent, heq]
      by_cases hq : q = e.1
      · subst hq
        simp [writeFile, okAll]
      · simp [writeFile_file_ne okAll fs e.1 e.2 hq, hq]
    · simp [lastContent, heq]

lemma execAttempts_isDir_allOk (l : List (List String × String)) :
    ∀ (fs : FS) (q : List String),
      ((execAttempts okAll fs l).1).isDir q
        = (l.any (fun e => decide (q ∈ prefixesOf e.1.dropLast))
            || fs.isDir q) := by
  induction l with
  | nil => intro fs q; rfl
  | cons e rest ih =>
    intro fs q
    show ((execAttempts okAll (writeFile okAll fs e.1 e.2).1 rest).1).isDir q = _
    rw [ih]
    have : ((writeFile okAll fs e.1 e.2).1).isDir q
        = (decide (q ∈ prefixesOf e.1.dropLast) || fs.isDir q) := by
      simp [writeFile, okAll, mkdirParents]
    rw [this]
    simp [Bool.or_assoc, Bool.or_comm, Bool.or_left_comm]

lemma execAttempts_fail (ok : List String → Bool)
    (pre : List (List String × String)) :
    ∀ (fs : FS) (pc : List String × String)
      (post : List (List String × String)),
      (∀ e ∈ pre, ok e.1 = true) → ok pc.1 = false →
      (execAttempts ok fs (pre ++ pc :: post)).2 = true ∧
        ∀ q, q ∉ pre.map Prod.fst →
          ((execAttempts ok fs (pre ++ pc :: post)).1).file q = fs.file q := by
  induction pre with
  | nil =>
    intro fs pc post _ hfail
    have hw : (writeFile ok fs pc.1 pc.2).2 = false := by
      simp [writeFile, hfail]
    constructor
    · show (if (writeFile ok fs pc.1 pc.2).2 then _ else ((writeFile ok fs pc.1 pc.2).1, true) : FS × Bool).2 = true
      rw [hw]
      rfl
    · intro q _
      show ((if (writeFile ok fs pc.1 pc.2).2 then _ else ((writeFile ok fs pc.1 pc.2).1, true) : FS × Bool).1).file q = _
      rw [hw]
      show ((writeFile ok fs pc.1 pc.2).1).file q = _
      unfold writeFile
      rw [hfail]
      rfl
  | cons e rest ih =>
    intro fs pc post hpre hfail
    have he : ok e.1 = true := hpre e (List.mem_cons_self e rest)
    have hw : (writeFile ok fs e.1 e.2).2 = true := by
      simp [writeFile, he]
    have ihr := ih (writeFile ok fs e.1 e.2).1 pc post
      (fun e1 h1 => hpre e1 (List.mem_cons_of_mem e h1)) hfail
    constructor
    · show (if (writeFile ok fs e.1 e.2).2 then _ else _ : FS × Bool).2 = true
      rw [hw]
      exact ihr.1
    · intro q hq
      simp only [List.map_cons, List.mem_cons, not_or] at hq
      show ((if (writeFile ok fs e.1 e.2).2 then _ else _ : FS × Bool).1).file q = _
      rw [hw]
      exact (ihr.2 q hq.2).trans (writeFile_file_ne ok fs e.1 e.2 hq.1)

/-! ## Characterization of a whole run

Because `_create_shared_packages` calls the missing `_get_event_bus` while
building its dictionary, every run performs exactly: the directory phase, the
seven root-file write attempts, and then the `AttributeError` that aborts the
remaining groups and is caught in `run`. -/

lemma execGroup_root (tpl : String → String) (ok : List String → Bool)
    (name : String) (fs : FS) :
    execGroup tpl ok name [] fs rootFiles
      = execAttempts ok fs (rootAttempts name tpl) := rfl

lemma execGroup_shared (tpl : String → String) (ok : List String → Bool)
    (name : String) (fs : FS) :
    execGroup tpl ok name [] fs (commonFiles ++ blockchainFiles)
      = (fs, true) := rfl

lemma createStructure_eq (tpl : String → String) (ok : List String → Bool)
    (name : String) (fs : FS) :
    createStructure tpl ok name fs
      = ((execAttempts ok (execMkdirs name fs directories)
            (rootAttempts name tpl)).1, true) := by
  unfold createStructure
  rw [execGroup_root]
  rcases h : execAttempts ok (execMkdirs name fs directories)
      (rootAttempts name tpl) with ⟨fs1, b⟩
  cases b <;> simp [step, execGroup_shared]

lemma run_eq (tpl : String → String) (ok : List String → Bool)
    (name : String) (fs : FS) :
    run tpl ok name fs
      = ((execAttempts ok (execMkdirs name fs directories)
            (rootAttempts name tpl)).1, 1) := by
  unfold run
  rw [createStructure_eq]
  rfl

lemma execMkdirs_isDir_eq (name : String) (ds : List String) :
    ∀ (fs : FS) (q : List String),
      (execMkdirs name fs ds).isDir q
        = (ds.any (fun d => decide (q ∈ prefixesOf (dirPath name d)))
            || fs.isDir q) := by
  induction ds with
  | nil => intro fs q; rfl
  | cons d rest ih =>
    intro fs q
    show (execMkdirs name (mkdirParents fs (dirPath name d)) rest).isDir q = _
    rw [ih]
    show _ = ((decide (q ∈ prefixesOf (dirPath name d)) || rest.any _) || fs.isDir q)
    simp [mkdirParents, Bool.or_assoc, Bool.or_comm, Bool.or_left_comm]

lemma lastContent_ne_none (l : List (List String × String)) (q : List String)
    (h : q ∈ l.map Prod.fst) : lastContent l q ≠ none := by
  induction l with
  | nil => simp at h
  | cons e rest ih =>
    simp only [List.map_cons, List.mem_cons] at h
    show (match lastContent rest q with
      | some c => some c
      | none => if q = e.1 then some e.2 else none) ≠ none
    rcases hl : lastContent rest q with _ | c
    · rcases h with h | h
      · simp [h]
      · exact absurd hl (ih h)
    · simp

lemma rootAttempts_fst (name : String) (tpl : String → String) :
    (rootAttempts name tpl).map Prod.fst
      = [[name, "README.md"], [name, ".gitignore"], [name, ".env.example"],
         [name, "docker-compose.yml"], [name, "docker-compose.prod.yml"],
         [name, "Makefile"], [name, "requirements.txt"]] := rfl

lemma rootAttempts_sub_planned (name : String) (tpl : String → String) :
    ∀ q ∈ (rootAttempts name tpl).map Prod.fst, q ∈ plannedFilePaths name := by
  intro q hq
  rw [rootAttempts_fst] at hq
  have mem : ∀ r ∈ plannedRels, name :: r ∈ plannedFilePaths name :=
    fun r hr => List.mem_map_of_mem _ hr
  simp only [List.mem_cons, List.not_mem_nil, or_false] at hq
  rcases hq with h | h | h | h | h | h | h <;> subst h <;>
    exact mem _ (by decide)

lemma rootAttempts_dropLast (name : String) (tpl : String → String) :
    ∀ e ∈ rootAttempts name tpl, e.1.dropLast = [name] := by
  intro e he
  simp only [rootAttempts, List.mem_cons, List.not_mem_nil, or_false] at he
  rcases he with h | h | h | h | h | h | h <;> subst h <;> rfl

lemma plannedFilePaths_head (name : String) :
    ∀ p ∈ plannedFilePaths name, p.head? = some name := by
  intro p hp
  rcases List.mem_map.mp hp with ⟨r, _, rfl⟩
  rfl

/-- After any run — whatever the template payloads and whatever writes fail —
every planned directory exists under the project root. -/
lemma run_isDir_planned (name : String) (tpl : String → String)
    (ok : List String → Bool) (fs : FS) (d : String) (hd : d ∈ directories) :
    ((run tpl ok name fs).1).isDir (dirPath name d) = true := by
  rw [run_eq]
  exact execAttempts_isDir_mono ok (rootAttempts name tpl) _ _
    (execMkdirs_isDir_of_mem name directories fs d hd)

/-- A filesystem that already holds one file outside any project root. -/
def fsWithOther : FS :=
  ⟨fun _ => false, fun q => if q = ["other", "x"] then some "hi" else none⟩

/-- `small` occurs as a contiguous substring of `big`. -/
def containsStr (big small : String) : Prop := small.data <:+: big.data

instance (big small : String) : Decidable (containsStr big small) :=
  inferInstanceAs (Decidable (small.data <:+: big.data))

/-! ## No-mkdir lemmas for the file-group part of the trace -/

lemma computeEvs_no_mkdir (tpl : String → String) :
    ∀ l : List (String × ContentSpec),
      ∀ e ∈ (computeEvs tpl l).1, isMkdirE e = false := by
  intro l
  induction l with
  | nil => intro e he; simp [computeEvs] at he
  | cons kc rest ih =>
    rcases kc with ⟨k, c⟩
    intro e he
    rcases h : evalContent tpl c with _ | s
    · simp [computeEvs, h] at he
    · simp only [computeEvs, h] at he
      rcases List.mem_cons.mp he with h1 | h1
      · rw [h1]; rfl
      · exact ih e h1

lemma writeEvs_no_mkdir (ok : List String → Bool) (name : String)
    (pfx : List String) :
    ∀ ks : List String, ∀ e ∈ (writeEvs ok name pfx ks).1,
      isMkdirE e = false := by
  intro ks
  induction ks with
  | nil => intro e he; simp [writeEvs] at he
  | cons k rest ih =>
    intro e he
    by_cases h : ok (entryPath name pfx k) = true
    · simp only [writeEvs, h, if_true] at he
      rcases List.mem_cons.mp he with h1 | h1
      · rw [h1]; rfl
      · exact ih e h1
    · simp only [writeEvs, Bool.not_eq_true] at h
      simp only [writeEvs, h, Bool.false_eq_true, if_false,
        List.mem_singleton] at he
      rw [he]; rfl

lemma groupEvs_no_mkdir (tpl : String → String) (ok : List String → Bool)
    (name : String) (pfx : List String)
    (entries : List (String × ContentSpec)) :
    ∀ e ∈ (groupEvs tpl ok name pfx entries).1, isMkdirE e = false := by
  intro e he
  unfold groupEvs at he
  by_cases h : (computeEvs tpl entries).2 = true
  · simp only [h, if_true] at he
    exact computeEvs_no_mkdir tpl entries e he
  · simp only [Bool.not_eq_true] at h
    simp only [h, Bool.false_eq_true, if_false] at he
    rcases List.mem_append.mp he with h1 | h1
    · exact computeEvs_no_mkdir tpl entries e h1
    · exact writeEvs_no_mkdir ok name pfx _ e h1

lemma serviceEvs_no_mkdir (tpl : String → String) (ok : List String → Bool)
    (name s : String) :
    ∀ e ∈ (serviceEvs tpl ok name s).1, isMkdirE e = false := by
  intro e he
  unfold serviceEvs at he
  by_cases h : (computeEvs tpl (serviceBaseFiles s)).2 = true
  · simp only [h, if_true] at he
    exact computeEvs_no_mkdir tpl _ e he
  · simp only [Bool.not_eq_true] at h
    simp only [h, Bool.false_eq_true, if_false] at he
    cases hx : serviceExtrasOf s with
    | noneE =>
      rw [hx] at he
      simp only [] at he
      rcases List.mem_append.mp he with h1 | h1
      · exact computeEvs_no_mkdir tpl _ e h1
      · exact writeEvs_no_mkdir ok name _ _ e h1
    | inlineE extra =>
      rw [hx] at he
      simp only [] at he
      by_cases h2 : (computeEvs tpl extra).2 = true
      · simp only [h2, if_true] at he
        rcases List.mem_append.mp he with h1 | h1
        · exact computeEvs_no_mkdir tpl _ e h1
        · exact computeEvs_no_mkdir tpl _ e h1
      · simp only [Bool.not_eq_true] at h2
        simp only [h2, Bool.false_eq_true, if_false] at he
        rcases List.mem_append.mp he with h1 | h1
        · rcases List.mem_append.mp h1 with h3 | h3
          · exact computeEvs_no_mkdir tpl _ e h3
          · exact computeEvs_no_mkdir tpl _ e h3
        · exact writeEvs_no_mkdir ok name _ _ e h1
    | missingE =>
      rw [hx] at he
      simp only [] at he
      exact computeEvs_no_mkdir tpl _ e he

lemma servicesEvs_no_mkdir (tpl : String → String) (ok : List String → Bool)
    (name : String) :
    ∀ ss : List String, ∀ e ∈ (servicesEvs tpl ok name ss).1,
      isMkdirE e = false := by
  intro ss
  induction ss with
  | nil => intro e he; simp [servicesEvs] at he
  | cons s rest ih =>
    intro e he
    unfold servicesEvs at he
    by_cases h : (serviceEvs tpl ok name s).2 = true
    · simp only [h, if_true] at he
      exact serviceEvs_no_mkdir tpl ok name s e he
    · simp only [Bool.not_eq_true] at h
      simp only [h, Bool.false_eq_true, if_false] at he
      rcases List.mem_append.mp he with h1 | h1
      · exact serviceEvs_no_mkdir tpl ok name s e h1
      · exact ih e h1

lemma stepEvs_no_mkdir (acc : List Event × Bool)
    (f : Unit → List Event × Bool)
    (ha : ∀ e ∈ acc.1, isMkdirE e = false)
    (hf : ∀ e ∈ (f ()).1, isMkdirE e = false) :
    ∀ e ∈ (stepEvs acc f).1, isMkdirE e = false := by
  intro e he
  unfold stepEvs at he
  by_cases h : acc.2 = true
  · simp only [h, if_true] at he
    exact ha e he
  · simp only [Bool.not_eq_true] at h
    simp only [h, Bool.false_eq_true, if_false] at he
    rcases List.mem_append.mp he with h1 | h1
    · exact ha e h1
    · exact hf e h1

lemma bodyEvs_no_mkdir (tpl : String → String) (ok : List String → Bool)
    (name : String) :
    ∀ e ∈ (bodyEvs tpl ok name).1, isMkdirE e = false := by
  unfold bodyEvs
  refine stepEvs_no_mkdir _ _ (stepEvs_no_mkdir _ _ (stepEvs_no_mkdir _ _
    (stepEvs_no_mkdir _ _ (stepEvs_no_mkdir _ _ (stepEvs_no_mkdir _ _
      (stepEvs_no_mkdir _ _ (stepEvs_no_mkdir _ _ (stepEvs_no_mkdir _ _
        (groupEvs_no_mkdir tpl ok name [] rootFiles)
        (fun e he => groupEvs_no_mkdir tpl ok name [] _ e he))
        (fun e he => servicesEvs_no_mkdir tpl ok name services e he))
        (fun e he => groupEvs_no_mkdir tpl ok name ["frontend/web-app"] _ e he))
        (fun e he => groupEvs_no_mkdir tpl ok name ["infrastructure"] _ e he))
        (fun e he => groupEvs_no_mkdir tpl ok name ["tools"] _ e he))
        (fun e he => groupEvs_no_mkdir tpl ok name ["docs"] _ e he))
        (fun e he => groupEvs_no_mkdir tpl ok name ["tests"] _ e he))
        (fun e he => groupEvs_no_mkdir tpl ok name [".github/workflows"] _ e he))
    (fun e he => groupEvs_no_mkdir tpl ok name [".github"] _ e he)

lemma no_write_in_mkdir_phase (j : Nat) (e : Event)
    (h : (directories.map Event.mkdirE)[j]? = some e) : isWriteE e = false := by
  have hm : e ∈ directories.map Event.mkdirE := List.getElem?_mem h
  rcases List.mem_map.mp hm with ⟨d, _, rfl⟩
  rfl

/-! ## Claim theorems -/

/-- C1 (counterexample): the claim that a per-file write failure is caught,
recorded, and isolated is false on the code.  With an environment in which
only the write of `.gitignore` fails, the later planned file `.env.example`
is never written, and the run does not continue to a success summary: the
exception aborts it and the process exits with status 1.  (`_write_file` has
no handler; the only `try/except` is the top-level one in `run`.) -/
theorem write_failure_not_isolated_counterexample :
    (run (fun _ => "") (fun p => !(p == ["n", ".gitignore"])) "n" emptyFS).2 = 1
    ∧ ((run (fun _ => "") (fun p => !(p == ["n", ".gitignore"])) "n"
        emptyFS).1).file ["n", ".env.example"] = none
    ∧ ((run (fun _ => "") (fun p => !(p == ["n", ".gitignore"])) "n"
        emptyFS).1).file ["n", "README.md"] = some "" :=
  ⟨rfl, rfl, rfl⟩

/-- C1 (amended): if the write of one planned file fails, the exception aborts
the write loop — every planned file that is not among the files already
written is left untouched — and propagates to `run`, which catches it only at
top level and exits with status 1.  There is no per-file failure collection
and no `WriteResult`. -/
theorem write_failure_aborts_run (name : String) (tpl : String → String)
    (fs : FS) (ok : List String → Bool)
    (pre : List (List String × String)) (pc : List String × String)
    (post : List (List String × String))
    (hsplit : rootAttempts name tpl = pre ++ pc :: post)
    (hpre : ∀ e ∈ pre, ok e.1 = true) (hfail : ok pc.1 = false) :
    (run tpl ok name fs).2 = 1
    ∧ ∀ q, q ∉ pre.map Prod.fst →
        ((run tpl ok name fs).1).file q = fs.file q := by
  rw [run_eq, hsplit]
  have hf := execAttempts_fail ok pre (execMkdirs name fs directories) pc post
    hpre hfail
  refine ⟨rfl, fun q hq => ?_⟩
  rw [hf.2 q hq]
  exact congrFun (execMkdirs_file name directories fs) q

/-- Witness for the amended C1 at a concrete environment: the write of
`.gitignore` fails, so `.env.example` is left unwritten. -/
theorem write_failure_aborts_run_witness :
    ((run (fun _ => "") (fun p => !(p == ["w", ".gitignore"])) "w"
        emptyFS).1).file ["w", ".env.example"] = none :=
  (write_failure_aborts_run "w" (fun _ => "") emptyFS
    (fun p => !(p == ["w", ".gitignore"]))
    [(["w", "README.md"], "")] ((["w", ".gitignore"]), "")
    [(["w", ".env.example"], ""), (["w", "docker-compose.yml"], ""),
     (["w", "docker-compose.prod.yml"], ""), (["w", "Makefile"], ""),
     (["w", "requirements.txt"], "# Root level requirements for development tools\npytest>=7.0.0\nblack>=22.0.0\nflake8>=4.0.0\nmypy>=0.910\npre-commit>=2.15.0")]
    rfl (by decide) rfl).2 ["w", ".env.example"] (by decide)

/-- C4: `_write_file` first creates the file's entire parent directory chain
(no precondition relates it to the planned directory list — the initial
filesystem is arbitrary, so a parent that was never pre-created is covered),
then writes the content verbatim, overwriting whatever was at that path, with
no effect on any other file; success depends only on the open succeeding. -/
theorem write_file_creates_parents_then_overwrites
    (ok : List String → Bool) (name directory filename content : String)
    (fs : FS) (h : ok (filePath name directory filename) = true) :
    (writeFile ok fs (filePath name directory filename) content).2 = true
    ∧ ((writeFile ok fs (filePath name directory filename) content).1).file
        (filePath name directory filename) = some content
    ∧ (∀ q ∈ prefixesOf (filePath name directory filename).dropLast,
        ((writeFile ok fs (filePath name directory filename) content).1).isDir q
          = true)
    ∧ (∀ q, q ≠ filePath name directory filename →
        ((writeFile ok fs (filePath name directory filename) content).1).file q
          = fs.file q) := by
  refine ⟨?_, ?_, fun q hq => writeFile_isDir_parent ok fs _ content hq,
    fun q hq => writeFile_file_ne ok fs _ content hq⟩
  · simp [writeFile, h]
  · simp [writeFile, h]

/-- Witness for C4: writing `n/a/b/f.txt` into an empty filesystem (so the
parent directories `n/a` and `n/a/b` did not exist and were not planned)
creates the parent chain. -/
theorem write_file_creates_parents_then_overwrites_witness :
    okAll (filePath "n" "a/b" "f.txt") = true
    ∧ ((writeFile okAll emptyFS (filePath "n" "a/b" "f.txt") "hello").1).isDir
        ["n", "a", "b"] = true :=
  ⟨rfl, (write_file_creates_parents_then_overwrites okAll "n" "a/b" "f.txt"
    "hello" emptyFS rfl).2.2.1 ["n", "a", "b"] (by decide)⟩

/-- C5: running the generator twice with the same project name is idempotent —
after the second run every file holds the same content and every directory
flag is the same as after the first run, and the exit status is the same
(re-creating the already existing directories does not fail:
`mkdir(exist_ok=True)`). -/
theorem generator_idempotent (name : String) (tpl : String → String)
    (fs : FS) (q r : List String) :
    ((run tpl okAll name ((run tpl okAll name fs).1)).1).file q
      = ((run tpl okAll name fs).1).file q
    ∧ ((run tpl okAll name ((run tpl okAll name fs).1)).1).isDir r
      = ((run tpl okAll name fs).1).isDir r
    ∧ (run tpl okAll name ((run tpl okAll name fs).1)).2
      = (run tpl okAll name fs).2 := by
  have hfile : ∀ fs1 : FS,
      ((execAttempts okAll (execMkdirs name fs1 directories)
        (rootAttempts name tpl)).1).file q
      = match lastContent (rootAttempts name tpl) q with
        | some c => some c
        | none => fs1.file q := by
    intro fs1
    rw [execAttempts_file_allOk]
    have hm := congrFun (execMkdirs_file name directories fs1) q
    cases hl : lastContent (rootAttempts name tpl) q <;> simp [hl, hm]
  have hdir : ∀ fs1 : FS,
      ((execAttempts okAll (execMkdirs name fs1 directories)
        (rootAttempts name tpl)).1).isDir r
      = ((rootAttempts name tpl).any
            (fun e => decide (r ∈ prefixesOf e.1.dropLast))
          || (directories.any
                (fun d => decide (r ∈ prefixesOf (dirPath name d)))
              || fs1.isDir r)) := by
    intro fs1
    rw [execAttempts_isDir_allOk, execMkdirs_isDir_eq]
  refine ⟨?_, ?_, by rw [run_eq, run_eq]⟩
  · rw [run_eq, run_eq, hfile, hfile]
    cases hl : lastContent (rootAttempts name tpl) q <;> simp [hl]
  · rw [run_eq, run_eq, hdir, hdir]
    have hb : ∀ a b x : Bool, (a || (b || (a || (b || x)))) = (a || (b || x)) := by
      decide
    exact hb _ _ _

/-- C9: the content each run writes is a pure function of the project name and
the template payloads — two runs over arbitrarily different initial
filesystems leave identical content at every path the run writes (no content
producer reads the disk or anything else beyond its string parameters). -/
theorem written_content_independent_of_disk (name : String)
    (tpl : String → String) (fs1 fs2 : FS) (q : List String)
    (h : q ∈ (rootAttempts name tpl).map Prod.fst) :
    ((run tpl okAll name fs1).1).file q
      = ((run tpl okAll name fs2).1).file q := by
  rw [run_eq, run_eq, execAttempts_file_allOk, execAttempts_file_allOk]
  cases hl : lastContent (rootAttempts name tpl) q
  · exact absurd hl (lastContent_ne_none _ q h)
  · simp [hl]

/-- Witness for C9: the `README.md` content is the same whether the run starts
from an empty directory or over a pre-populated filesystem. -/
theorem written_content_independent_of_disk_witness :
    ((run (fun _ => "T") okAll "n" emptyFS).1).file ["n", "README.md"]
      = ((run (fun _ => "T") okAll "n" fsWithOther).1).file ["n", "README.md"] :=
  written_content_independent_of_disk "n" (fun _ => "T") emptyFS fsWithOther
    ["n", "README.md"] (by decide)

/-- C6: the planned directory list is the fixed literal `directories` — the
directory phase of the trace is that list, whatever the template payloads or
write outcomes, so it is not computed from the files — and after a run every
planned directory exists under the project root, including
`frontend/mobile-app/android`, under which the plan declares no file at
all. -/
theorem planned_directory_list_fixed_and_created :
    (∀ (tpl : String → String) (ok : List String → Bool) (name : String),
      (execTrace tpl ok name).take directories.length
        = directories.map Event.mkdirE)
    ∧ (∀ (name : String) (tpl : String → String) (ok : List String → Bool)
        (fs : FS), ∀ d ∈ directories,
        ((run tpl ok name fs).1).isDir (dirPath name d) = true)
    ∧ "frontend/mobile-app/android" ∈ directories
    ∧ (plannedFilePaths "n").all
        (fun p => !((dirPath "n" "frontend/mobile-app/android").isPrefixOf p))
        = true := by
  refine ⟨?_, ?_, by decide, by decide⟩
  · intro tpl ok name
    show (directories.map Event.mkdirE ++ (bodyEvs tpl ok name).1).take _ = _
    rw [← List.length_map directories Event.mkdirE]
    exact List.take_left _ _
  · intro name tpl ok fs d hd
    exact run_isDir_planned name tpl ok fs d hd

set_option maxRecDepth 100000 in
/-- Witness for C6 at a concrete run: `tools/scripts` exists afterwards. -/
theorem planned_directory_list_fixed_and_created_witness :
    ((run (fun _ => "") okAll "n" emptyFS).1).isDir ["n", "tools", "scripts"]
      = true :=
  planned_directory_list_fixed_and_created.2.1 "n" (fun _ => "") okAll emptyFS
    "tools/scripts" (by decide)

/-- C10: a run only ever touches paths under `Path(project_name)`: a
pre-existing file outside the planned file paths keeps its exact content, any
directory the run reports that was not there before lies under the project
root, no file or directory is ever deleted, and every planned file path is
rooted at the project name.  (The generator also never reads the filesystem:
see the content-independence theorem for C9.) -/
theorem run_confined_to_project_root (name : String) (tpl : String → String)
    (ok : List String → Bool) (fs : FS) :
    (∀ q c, fs.file q = some c → q ∉ plannedFilePaths name →
        ((run tpl ok name fs).1).file q = some c)
    ∧ (∀ q, ((run tpl ok name fs).1).isDir q = true →
        fs.isDir q = true ∨ q.head? = some name)
    ∧ (∀ q c, fs.file q = some c →
        ∃ c2, ((run tpl ok name fs).1).file q = some c2)
    ∧ (∀ q, fs.isDir q = true → ((run tpl ok name fs).1).isDir q = true)
    ∧ (∀ p ∈ plannedFilePaths name, p.head? = some name) := by
  rw [run_eq]
  refine ⟨?_, ?_, ?_, ?_, plannedFilePaths_head name⟩
  · intro q c hq hnp
    have hnot : q ∉ (rootAttempts name tpl).map Prod.fst :=
      fun hmem => hnp (rootAttempts_sub_planned name tpl q hmem)
    rw [execAttempts_file_frame ok _ _ q hnot,
      congrFun (execMkdirs_file name directories fs) q]
    exact hq
  · intro q h
    rcases execAttempts_isDir_src ok _ _ q h with h1 | ⟨e, he, h1⟩
    · exact execMkdirs_isDir_src name directories fs q h1
    · refine Or.inr ?_
      rw [rootAttempts_dropLast name tpl e he] at h1
      have hq : q = [name] := by simpa [prefixesOf] using h1
      rw [hq]
      rfl
  · intro q c hq
    refine execAttempts_file_mono ok _ _ q c ?_
    rw [congrFun (execMkdirs_file name directories fs) q]
    exact hq
  · intro q hq
    exact execAttempts_isDir_mono ok _ _ q
      (execMkdirs_isDir_mono name directories fs q hq)

/-- Witness for C10: a pre-existing file at `other/x` is unchanged by a run
into project root `n`. -/
theorem run_confined_to_project_root_witness :
    ((run (fun _ => "") okAll "n" fsWithOther).1).file ["other", "x"]
      = some "hi" :=
  (run_confined_to_project_root "n" (fun _ => "") okAll fsWithOther).1
    ["other", "x"] "hi" rfl (by decide)

/-- C8: with no argument the project name is the fixed default
`"prism-carbon-registry"`; with an argument it is exactly that argument (only
`sys.argv[1]` is consulted — further arguments have no effect); the run
creates the top-level directory named by the project name; and the directory
and file structure below the root is the same for every project name. -/
theorem default_and_custom_naming :
    (∀ prog : String, mainProjectName [prog] = "prism-carbon-registry")
    ∧ mainProjectName [] = "prism-carbon-registry"
    ∧ (∀ (prog : String) (rest : List String),
        mainProjectName (prog :: "my-registry" :: rest) = "my-registry")
    ∧ (∀ (prog a : String) (rest : List String),
        mainProjectName (prog :: a :: rest) = a)
    ∧ (∀ (name : String) (tpl : String → String) (ok : List String → Bool)
        (fs : FS), ((run tpl ok name fs).1).isDir [name] = true)
    ∧ (∀ n1 n2 : String,
        (plannedFilePaths n1).map List.tail
          = (plannedFilePaths n2).map List.tail)
    ∧ (∀ n1 n2 : String,
        directories.map (fun d => (dirPath n1 d).tail)
          = directories.map (fun d => (dirPath n2 d).tail)) := by
  refine ⟨fun prog => rfl, rfl, fun prog rest => rfl, fun prog a rest => rfl,
    ?_, ?_, ?_⟩
  · intro name tpl ok fs
    have h := run_isDir_planned name tpl ok fs "" (by decide)
    simpa [dirPath] using h
  · intro n1 n2
    simp [plannedFilePaths, List.map_map, Function.comp]
  · intro n1 n2
    have hd : ∀ (n d : String),
        (dirPath n d).tail = if d = "" then [] else splitSlash d := by
      intro n d
      unfold dirPath
      split <;> rfl
    simp only [hd]

set_option maxRecDepth 100000 in
/-- C2 (counterexample): the claim that the display form appears in the
health-check field is false.  The health-check field of the generated
`user-service` main entrypoint — the `/health` route, which is part of the
generated content — does not contain the substring `"User Service"`. -/
theorem health_field_lacks_display_form_counterexample :
    ¬ containsStr (mainHealthField "user-service") "User Service"
    ∧ containsStr (serviceMain "user-service") (mainHealthField "user-service") := by
  constructor
  · decide
  · show (mainHealthField "user-service").data <:+: (serviceMain "user-service").data
    show (mainHealthField "user-service").data <:+:
      (mainPartA "user-service" ++ mainTitleField "user-service"
        ++ mainPartB "user-service" ++ mainHealthField "user-service"
        ++ mainPartC).data
    simp only [String.data_append]
    rw [List.append_assoc]
    exact List.infix_append' _ _ _

set_option maxRecDepth 100000 in
/-- C2 (amended): for `"user-service"` the derived display form
`"User Service"` appears in the application title field (and, via the same
transform, in the docstring, description, and root-message fields), and the
generated health endpoint payload contains the raw identifier
`"user-service"` unmodified — but the health-check field does not contain the
display form. -/
theorem display_form_in_title_raw_in_health :
    displayName "user-service" = "User Service"
    ∧ containsStr (serviceMain "user-service") (mainTitleField "user-service")
    ∧ containsStr (mainTitleField "user-service") "User Service"
    ∧ containsStr (serviceMain "user-service") (mainHealthField "user-service")
    ∧ containsStr (mainHealthField "user-service") "user-service"
    ∧ ¬ containsStr (mainHealthField "user-service") "User Service" := by
  refine ⟨rfl, ?_, by decide, ?_, by decide, by decide⟩
  · show (mainTitleField "user-service").data <:+:
      (mainPartA "user-service" ++ mainTitleField "user-service"
        ++ mainPartB "user-service" ++ mainHealthField "user-service"
        ++ mainPartC).data
    simp only [String.data_append, List.append_assoc]
    exact List.infix_append' (mainPartA "user-service").data
      (mainTitleField "user-service").data _
  · show (mainHealthField "user-service").data <:+:
      (mainPartA "user-service" ++ mainTitleField "user-service"
        ++ mainPartB "user-service" ++ mainHealthField "user-service"
        ++ mainPartC).data
    simp only [String.data_append]
    rw [List.append_assoc]
    exact List.infix_append' _ _ _

/-- C7: in every run — whatever the template payloads and whichever writes
fail — every planned-directory-creation event precedes every file-write event
in the trace: directory creation for the planned list completes before the
first file write begins. -/
theorem mkdirs_precede_writes (tpl : String → String) (ok : List String → Bool)
    (name : String) (i j : Nat) (e1 e2 : Event)
    (hi : (execTrace tpl ok name)[i]? = some e1) (hm : isMkdirE e1 = true)
    (hj : (execTrace tpl ok name)[j]? = some e2) (hw : isWriteE e2 = true) :
    i < j := by
  have htr : execTrace tpl ok name
      = directories.map Event.mkdirE ++ (bodyEvs tpl ok name).1 := rfl
  rw [htr] at hi hj
  have hlen : (directories.map Event.mkdirE).length = directories.length :=
    List.length_map _ _
  have hj159 : directories.length ≤ j := by
    by_contra hlt
    push_neg at hlt
    have h2 : (directories.map Event.mkdirE)[j]? = some e2 := by
      rw [← List.getElem?_append_left (hlen.symm ▸ hlt)]
      exact hj
    have h3 := no_write_in_mkdir_phase j e2 h2
    rw [hw] at h3
    exact absurd h3 (by simp)
  have hi159 : i < directories.length := by
    by_contra hge
    push_neg at hge
    have h2 : ((bodyEvs tpl ok name).1)[i - (directories.map Event.mkdirE).length]?
        = some e1 := by
      rw [← List.getElem?_append_right (hlen.symm ▸ hge)]
      exact hi
    have h3 := bodyEvs_no_mkdir tpl ok name e1 (List.getElem?_mem h2)
    rw [hm] at h3
    exact absurd h3 (by simp)
  exact lt_of_lt_of_le hi159 hj159

set_option maxRecDepth 100000 in
/-- Witness for C7 in a concrete run: event 0 is the creation of the project
root, event 166 is the first file write, and the theorem places them in this
order. -/
theorem mkdirs_precede_writes_witness :
    (execTrace (fun _ => "") okAll "n")[0]? = some (Event.mkdirE "")
    ∧ (execTrace (fun _ => "") okAll "n")[166]?
        = some (Event.writeE ["n", "README.md"])
    ∧ (0 : Nat) < 166 :=
  ⟨rfl, rfl,
    mkdirs_precede_writes (fun _ => "") okAll "n" 0 166 (Event.mkdirE "")
      (Event.writeE ["n", "README.md"]) rfl rfl rfl rfl⟩

set_option maxRecDepth 100000 in
/-- C3 (counterexample): the run does not compute the complete plan in memory
before its first side-effecting filesystem operation: the event trace of a
concrete run violates the plan-then-execute discipline (all 159 directory
creations and the seven root-file writes happen before the shared-package
contents are even computed). -/
theorem plan_interleaved_counterexample :
    planThenExecute (execTrace (fun _ => "") okAll "n") = false := rfl

set_option maxRecDepth 100000 in
/-- C3 (amended): the run is phased but interleaved: every planned directory
is created first (the trace starts with the mkdir phase and the file-group
part contains no planned-directory creation), and then each file group's
contents are computed and immediately written before the next group's contents
are computed — concretely, the write of `README.md` (event 166) precedes the
computation of the shared-package contents (event 173).  The complete plan is
never materialized before execution begins. -/
theorem dirs_first_then_interleaved_groups :
    (∀ (tpl : String → String) (ok : List String → Bool) (name : String),
      execTrace tpl ok name
        = directories.map Event.mkdirE ++ (bodyEvs tpl ok name).1)
    ∧ (∀ (tpl : String → String) (ok : List String → Bool) (name : String),
        ((bodyEvs tpl ok name).1).all (fun e => !isMkdirE e) = true)
    ∧ (execTrace (fun _ => "") okAll "n")[166]?
        = some (Event.writeE ["n", "README.md"])
    ∧ (execTrace (fun _ => "") okAll "n")[173]?
        = some (Event.computeE "packages/common/__init__.py") := by
  refine ⟨fun _ _ _ => rfl, ?_, rfl, rfl⟩
  intro tpl ok name
  rw [List.all_eq_true]
  intro e he
  simp [bodyEvs_no_mkdir tpl ok name e he]

end StructureGen
